import Mathlib

/-!
Shallow embedding of `year_sheet.py` (class `YearSheet`), the core of the
year-sheet calendar heatmap program, together with proofs about its
calendar arithmetic, coordinate assignment, validation and aggregation.

Day values are modelled as rationals.  `calendar.weekday` /
`calendar.isleap` from the Python standard library are embedded via the
proleptic Gregorian ordinal-day count used by `datetime.date.toordinal`.
-/

set_option maxRecDepth 8000

namespace YearSheetModel

/-- Embedding of Python `calendar.isleap`. -/
def isleap (y : Nat) : Bool :=
  y % 4 == 0 && (y % 100 != 0 || y % 400 == 0)

/-- Number of days in year `y` of the proleptic Gregorian calendar. -/
def daysInYear (y : Nat) : Nat :=
  if isleap y then 366 else 365

/-- Days strictly before January 1 of year `y` counted from January 1 of
year 1 (so `daysBeforeYear y = toordinal(y, 1, 1) - 1` in Python's
`datetime`). -/
def daysBeforeYear (y : Nat) : Nat :=
  365 * (y - 1) + (y - 1) / 4 - (y - 1) / 100 + (y - 1) / 400

/-- Embedding of `calendar.weekday(y, 1, 1)`: 0 = Monday .. 6 = Sunday
(January 1 of year 1 is a Monday in the proleptic Gregorian calendar). -/
def weekdayJan1 (y : Nat) : Nat :=
  daysBeforeYear y % 7

/-- Embedding of `calendar.weekday(y, 12, 31)`: 0 = Monday .. 6 = Sunday. -/
def weekdayDec31 (y : Nat) : Nat :=
  (daysBeforeYear y + daysInYear y - 1) % 7

/-- ISO weekday number (1 = Monday .. 7 = Sunday) of January 1 of year `y`,
used by the specification's wording. -/
def isoWeekdayJan1 (y : Nat) : Nat :=
  weekdayJan1 y + 1

/-- Embedding of `YearSheet._get_first_week_days`:
`7 - calendar.weekday(self.year, 1, 1)`. -/
def firstWeekDays (y : Nat) : Nat :=
  7 - weekdayJan1 y

/-- Embedding of `YearSheet._get_last_week_days`:
`calendar.weekday(self.year, 12, 31) + 1`. -/
def lastWeekDays (y : Nat) : Nat :=
  weekdayDec31 y + 1

/-- Error taxonomy of the `ValueError`s raised by `YearSheet`. -/
inductive YSError where
  | sizeValidation
  | yearMismatch
deriving DecidableEq, Repr

/-- The message attached to each raised `ValueError`. -/
def errMessage : YSError → String
  | .sizeValidation => "The file contains less than 365 or more than 366 entries."
  | .yearMismatch => "Data size and year mismatch."

/-- Minimum of a list of rationals, as computed by `np.min` (unspecified on
the empty list, which makes `numpy` raise; we return 0 there). -/
def listMin : List ℚ → ℚ
  | [] => 0
  | [a] => a
  | a :: b :: rest => min a (listMin (b :: rest))

/-- Embedding of `YearSheet._generate_random_data`: the underlying normal
draw is the explicit argument `draw` (one value per requested day) and the
function returns `draw - draw.min()` elementwise. -/
def generateRandomData (draw : List ℚ) : List ℚ :=
  draw.map (fun v => v - listMin draw)

/-- Embedding of `YearSheet._parse_file` after `np.loadtxt`: `s` is the
parsed flat numeric array; a size outside 365/366 raises. -/
def parseFile (s : List ℚ) : Except YSError (List ℚ) :=
  if s.length = 365 ∨ s.length = 366 then .ok s else .error .sizeValidation

/-- Embedding of `YearSheet._get_year_from_data`. -/
def getYearFromData (d : List ℚ) : Nat :=
  if d.length = 365 then 2021 else 2020

/-- Embedding of `YearSheet.match_data_and_year` (acting on the data
length and the year). -/
def matchDataAndYear (len y : Nat) : Except YSError Unit :=
  if (len = 365 ∧ isleap y = true) ∨ (len = 366 ∧ isleap y = false) then
    .error .yearMismatch
  else
    .ok ()

/-- The state a successfully constructed `YearSheet` object holds. -/
structure Sheet where
  data : List ℚ
  year : Nat
  week_load : Bool
deriving DecidableEq, Repr

/-- Python truthiness of the optional `year` argument: `--year 0` is falsy
in `if not source and not year`, so a zero year behaves like an absent
year. -/
def normYear : Option Nat → Option Nat
  | some 0 => none
  | o => o

/-- The four branches of `YearSheet.__init__` on the truthiness-normalized
arguments: `source` is the parsed content of the source file when one is
given, `draw` supplies the underlying random draw for a requested number
of days. -/
def initCore : Option (List ℚ) → Option Nat → Bool → (Nat → List ℚ) →
    Except YSError Sheet
  | none, none, bare, draw =>
      let d := generateRandomData (draw 365)
      .ok ⟨d, getYearFromData d, !bare⟩
  | some s, none, bare, _draw =>
      match parseFile s with
      | .error e => .error e
      | .ok d => .ok ⟨d, getYearFromData d, !bare⟩
  | none, some y, bare, draw =>
      let d :=
        if isleap y then generateRandomData (draw 366)
        else generateRandomData (draw 365)
      .ok ⟨d, y, !bare⟩
  | some s, some y, bare, _draw =>
      match parseFile s with
      | .error e => .error e
      | .ok d =>
          match matchDataAndYear d.length y with
          | .error e => .error e
          | .ok _ => .ok ⟨d, y, !bare⟩

/-- Embedding of `YearSheet.__init__`. -/
def initYearSheet (source : Option (List ℚ)) (year : Option Nat) (bare : Bool)
    (draw : Nat → List ℚ) : Except YSError Sheet :=
  initCore source (normYear year) bare draw

/-- Inner 51 full weeks of week indices, from `YearSheet._x`:
`np.concatenate([np.full(7, n) for n in range(1, 52)])`. -/
def innerX : List Nat :=
  ((List.range' 1 51).map (fun n => List.replicate 7 n)).flatten

/-- Inner 51 full weeks of weekday indices, from `YearSheet._y`:
`np.concatenate([np.arange(1, 8) for _ in range(1, 52)])`. -/
def innerY : List Nat :=
  ((List.range' 1 51).map (fun _ => List.range' 1 7)).flatten

/-- Embedding of the array computed by `YearSheet._x` (before its size
assertion). -/
def xCoords (y : Nat) : List Nat :=
  List.replicate (firstWeekDays y) 0 ++ innerX ++ List.replicate (lastWeekDays y) 52

/-- Embedding of the array computed by `YearSheet._y` (before its size
assertion). -/
def yCoords (y : Nat) : List Nat :=
  List.range' 1 (firstWeekDays y) ++ innerY ++ List.range' 1 (lastWeekDays y)

/-- Embedding of `YearSheet._week_load_data`: pandas `groupby('x').sum()`
pairs each distinct week index (ascending) with the sum of the day values
falling in that week. -/
def weekLoadData (y : Nat) (data : List ℚ) : List (Nat × ℚ) :=
  let pairs := (xCoords y).zip data
  let keys := List.insertionSort (fun a b => a ≤ b) (xCoords y).dedup
  keys.map (fun w => (w, ((pairs.filter (fun p => p.1 == w)).map Prod.snd).sum))

lemma weekdayJan1_lt_seven (y : Nat) : weekdayJan1 y < 7 :=
  Nat.mod_lt _ (by decide)

set_option maxRecDepth 4000 in
lemma length_innerX : innerX.length = 357 := by decide

set_option maxRecDepth 4000 in
lemma length_innerY : innerY.length = 357 := by decide

lemma length_xCoords (y : Nat) :
    (xCoords y).length = firstWeekDays y + 357 + lastWeekDays y := by
  simp [xCoords, length_innerX]
  omega

lemma length_yCoords (y : Nat) :
    (yCoords y).length = firstWeekDays y + 357 + lastWeekDays y := by
  simp [yCoords, length_innerY]
  omega

/-- Core arithmetic fact: the total number of grid cells produced for year
`y`, split by leap-ness and the weekday of January 1. -/
lemma total_cells (y : Nat) :
    firstWeekDays y + 357 + lastWeekDays y =
      if isleap y = true then (if weekdayJan1 y = 6 then 359 else 366) else 365 := by
  have hlt := weekdayJan1_lt_seven y
  simp only [firstWeekDays, lastWeekDays, weekdayDec31, daysInYear, weekdayJan1] at hlt ⊢
  cases h : isleap y
  · simp only [h, Bool.false_eq_true, if_false]
    omega
  · simp only [h, if_true]
    by_cases h6 : daysBeforeYear y % 7 = 6 <;> simp [h6] <;> omega

/-- C1 counterexample: 2012 is a leap year (January 1, 2012 is a Sunday)
yet the partial-week day counts sum with the 51 full weeks to 359, not
366. -/
theorem c1_total_counterexample :
    isleap 2012 = true ∧ weekdayJan1 2012 = 6 ∧
      firstWeekDays 2012 + 51 * 7 + lastWeekDays 2012 = 359 := by
  refine ⟨by decide, by decide, by decide⟩

/-- C1 amended: for every year `y ≥ 1`, `firstWeekDays y + 51*7 +
lastWeekDays y` equals 365 when `y` is not a leap year; when `y` is a leap
year it equals 366 unless January 1 falls on a Sunday, in which case it
equals 359. -/
theorem c1_total_days (y : Nat) (_hy : 1 ≤ y) :
    (isleap y = false → firstWeekDays y + 51 * 7 + lastWeekDays y = 365) ∧
    (isleap y = true → weekdayJan1 y ≠ 6 →
      firstWeekDays y + 51 * 7 + lastWeekDays y = 366) ∧
    (isleap y = true → weekdayJan1 y = 6 →
      firstWeekDays y + 51 * 7 + lastWeekDays y = 359) := by
  have h := total_cells y
  refine ⟨fun hl => ?_, fun hl hw => ?_, fun hl hw => ?_⟩
  · rw [hl] at h
    simp at h
    omega
  · rw [hl] at h
    simp [hw] at h
    omega
  · rw [hl] at h
    simp [hw] at h
    omega

/-- C1 witness: the amended statement evaluated at the non-leap year 2021
and at the leap year 2020 (January 1, 2020 is a Wednesday). -/
theorem c1_total_days_witness :
    firstWeekDays 2021 + 51 * 7 + lastWeekDays 2021 = 365 ∧
      firstWeekDays 2020 + 51 * 7 + lastWeekDays 2020 = 366 :=
  ⟨(c1_total_days 2021 (by decide)).1 (by decide),
   (c1_total_days 2020 (by decide)).2.1 (by decide) (by decide)⟩

/-- C3 counterexample: the ISO weekday of January 1, 2021 (a Friday) is 5,
so the claimed formula `7 - isoWeekday` yields 2, while
`_get_first_week_days` returns 3. -/
theorem c3_formula_counterexample :
    isoWeekdayJan1 2021 = 5 ∧ 7 - isoWeekdayJan1 2021 = 2 ∧
      firstWeekDays 2021 = 3 := by
  refine ⟨by decide, by decide, by decide⟩

/-- C3 amended: `_get_first_week_days y` equals `8` minus the ISO weekday
of January 1 (equivalently `7` minus the zero-based Monday-0 weekday),
mapping a Monday January 1 to 7 and a Sunday January 1 to 1; for 2021 it
equals 3. -/
theorem c3_first_week_days (y : Nat) (_hy : 1 ≤ y) :
    firstWeekDays y = 8 - isoWeekdayJan1 y ∧
    (isoWeekdayJan1 y = 1 → firstWeekDays y = 7) ∧
    (isoWeekdayJan1 y = 7 → firstWeekDays y = 1) ∧
    firstWeekDays 2021 = 3 := by
  have hlt := weekdayJan1_lt_seven y
  refine ⟨?_, ?_, ?_, by decide⟩ <;> unfold isoWeekdayJan1 firstWeekDays <;> omega

/-- C3 witness: the amended statement evaluated at 2021. -/
theorem c3_first_week_days_witness :
    firstWeekDays 2021 = 8 - isoWeekdayJan1 2021 :=
  (c3_first_week_days 2021 (by decide)).1

lemma length_generateRandomData (d : List ℚ) :
    (generateRandomData d).length = d.length := by
  simp [generateRandomData]

lemma listMin_replicate_zero (n : Nat) : listMin (List.replicate n (0:ℚ)) = 0 := by
  induction n with
  | zero => rfl
  | succ m ih =>
      cases m with
      | zero => rfl
      | succ k =>
          rw [List.replicate_succ, List.replicate_succ]
          show min 0 (listMin ((0:ℚ) :: List.replicate k 0)) = 0
          rw [← List.replicate_succ] at *
          rw [ih]
          simp

lemma generateRandomData_replicate_zero (n : Nat) :
    generateRandomData (List.replicate n (0:ℚ)) = List.replicate n 0 := by
  simp [generateRandomData, listMin_replicate_zero]

lemma getYearFromData_replicate_zero_365 :
    getYearFromData (List.replicate 365 (0:ℚ)) = 2021 := by
  unfold getYearFromData
  rw [List.length_replicate, if_pos rfl]

lemma initYearSheet_none_none (bare : Bool) (draw : Nat → List ℚ) :
    initYearSheet none none bare draw =
      .ok ⟨generateRandomData (draw 365),
           getYearFromData (generateRandomData (draw 365)), !bare⟩ := rfl

lemma parseFile_ok {s d : List ℚ} (h : parseFile s = .ok d) :
    d = s ∧ (s.length = 365 ∨ s.length = 366) := by
  unfold parseFile at h
  split at h
  · next hc => exact ⟨(Except.ok.inj h).symm, hc⟩
  · next => cases h

lemma parseFile_error {s : List ℚ} (h : ¬(s.length = 365 ∨ s.length = 366)) :
    parseFile s = .error .sizeValidation := by
  unfold parseFile
  exact if_neg h

lemma matchDataAndYear_ok {len y : Nat} {u : Unit}
    (h : matchDataAndYear len y = .ok u) :
    ¬((len = 365 ∧ isleap y = true) ∨ (len = 366 ∧ isleap y = false)) := by
  unfold matchDataAndYear at h
  split at h
  · cases h
  · next hc => exact hc

/-- Every successfully constructed sheet has data of size 365 or 366, the
size being 366 exactly on leap resolved years.  Shared inventory over the
four construction branches. -/
lemma init_ok_inventory
    {source : Option (List ℚ)} {year : Option Nat} {bare : Bool}
    {draw : Nat → List ℚ} {s : Sheet}
    (hdraw : ∀ n, (draw n).length = n)
    (h : initYearSheet source year bare draw = .ok s) :
    (s.data.length = 365 ∨ s.data.length = 366) ∧
    (s.data.length = 366 ↔ isleap s.year = true) := by
  unfold initYearSheet at h
  rcases hny : normYear year with _ | y <;> rw [hny] at h
  · cases source with
    | none =>
        simp only [initCore] at h
        cases Except.ok.inj h
        have hlen := length_generateRandomData (draw 365)
        rw [hdraw 365] at hlen
        refine ⟨Or.inl hlen, ?_⟩
        show (generateRandomData (draw 365)).length = 366 ↔
          isleap (getYearFromData (generateRandomData (draw 365))) = true
        rw [hlen, show getYearFromData (generateRandomData (draw 365)) = 2021 from
          by simp [getYearFromData, hlen]]
        decide
    | some src =>
        simp only [initCore] at h
        split at h
        · cases h
        · rename_i d hp
          cases Except.ok.inj h
          obtain ⟨rfl, hl⟩ := parseFile_ok hp
          refine ⟨hl, ?_⟩
          show d.length = 366 ↔ isleap (getYearFromData d) = true
          rcases hl with h365 | h366
          · rw [h365, show getYearFromData d = 2021 from by simp [getYearFromData, h365]]
            decide
          · rw [h366, show getYearFromData d = 2020 from by simp [getYearFromData, h366]]
            decide
  · cases source with
    | none =>
        simp only [initCore] at h
        cases hleap : isleap y
        · rw [hleap, if_neg (show ¬(false = true) from by decide)] at h
          cases Except.ok.inj h
          have hlen := length_generateRandomData (draw 365)
          rw [hdraw 365] at hlen
          refine ⟨Or.inl hlen, ?_⟩
          show (generateRandomData (draw 365)).length = 366 ↔ isleap y = true
          rw [hlen, hleap]
          decide
        · rw [hleap, if_pos (show true = true from rfl)] at h
          cases Except.ok.inj h
          have hlen := length_generateRandomData (draw 366)
          rw [hdraw 366] at hlen
          refine ⟨Or.inr hlen, ?_⟩
          show (generateRandomData (draw 366)).length = 366 ↔ isleap y = true
          rw [hlen, hleap]
          decide
    | some src =>
        simp only [initCore] at h
        split at h
        · cases h
        · rename_i d hp
          split at h
          · cases h
          · rename_i u hm
            cases Except.ok.inj h
            obtain ⟨rfl, hl⟩ := parseFile_ok hp
            have hmm := matchDataAndYear_ok hm
            refine ⟨hl, ?_⟩
            show d.length = 366 ↔ isleap y = true
            rcases hl with h365 | h366
            · constructor
              · intro h36
                rw [h365] at h36
                exact absurd h36 (by decide)
              · intro hlp
                exact absurd (Or.inl ⟨h365, hlp⟩) hmm
            · refine ⟨fun _ => ?_, fun _ => h366⟩
              cases hq : isleap y
              · exact absurd (Or.inr ⟨h366, hq⟩) hmm
              · rfl

/-- C8: after every successful construction, the DaySeries length is 366
exactly when the resolved year is leap, and 365 exactly when it is not. -/
theorem c8_size_year_consistency
    (source : Option (List ℚ)) (year : Option Nat) (bare : Bool)
    (draw : Nat → List ℚ) (s : Sheet)
    (hdraw : ∀ n, (draw n).length = n)
    (h : initYearSheet source year bare draw = .ok s) :
    (s.data.length = 366 ↔ isleap s.year = true) ∧
    (s.data.length = 365 ↔ isleap s.year = false) := by
  obtain ⟨hor, hiff⟩ := init_ok_inventory hdraw h
  refine ⟨hiff, ?_, ?_⟩
  · intro h365
    cases hq : isleap s.year
    · rfl
    · have h366 := hiff.mpr hq
      rw [h365] at h366
      exact absurd h366 (by decide)
  · intro hf
    rcases hor with h365 | h366
    · exact h365
    · rw [hiff.mp h366] at hf
      cases hf

/-- C8 witness: the no-source no-year branch with an all-zero draw yields
the sheet (365 zeros, year 2021), and the consistency holds there. -/
theorem c8_size_year_consistency_witness :
    ((List.replicate 365 (0:ℚ)).length = 366 ↔ isleap 2021 = true) ∧
    ((List.replicate 365 (0:ℚ)).length = 365 ↔ isleap 2021 = false) :=
  c8_size_year_consistency none none false (fun n => List.replicate n 0)
    ⟨List.replicate 365 0, 2021, true⟩ (fun n => by simp)
    (by rw [initYearSheet_none_none, generateRandomData_replicate_zero,
          getYearFromData_replicate_zero_365]
        rfl)

lemma initYearSheet_some_none (s : List ℚ) (bare : Bool) (draw : Nat → List ℚ) :
    initYearSheet (some s) none bare draw =
      match parseFile s with
      | .error e => .error e
      | .ok d => .ok ⟨d, getYearFromData d, !bare⟩ := rfl

lemma normYear_some {y : Nat} (hy : y ≠ 0) : normYear (some y) = some y := by
  cases y with
  | zero => exact absurd rfl hy
  | succ k => rfl

/-- Closed form of the source-and-year construction branch. -/
lemma initYearSheet_some_some_eq (s : List ℚ) (y : Nat) (bare : Bool)
    (draw : Nat → List ℚ) (hy : y ≠ 0) :
    initYearSheet (some s) (some y) bare draw =
      if s.length = 365 ∨ s.length = 366 then
        if (s.length = 365 ∧ isleap y = true) ∨ (s.length = 366 ∧ isleap y = false)
        then .error .yearMismatch
        else .ok ⟨s, y, !bare⟩
      else .error .sizeValidation := by
  unfold initYearSheet
  rw [normYear_some hy]
  simp only [initCore]
  split
  · rename_i e hp
    unfold parseFile at hp
    split at hp
    · cases hp
    · next hnl =>
        cases Except.error.inj hp
        rw [if_neg hnl]
  · rename_i d hp
    obtain ⟨rfl, hl⟩ := parseFile_ok hp
    rw [if_pos hl]
    split
    · rename_i e hm
      unfold matchDataAndYear at hm
      split at hm
      · next hc =>
          cases Except.error.inj hm
          rw [if_pos hc]
      · cases hm
    · rename_i u hm
      rw [if_neg (matchDataAndYear_ok hm)]

/-- C2 counterexample: for year 2012 (leap, January 1 a Sunday) the
construction with no source succeeds with 366 data points, yet both
coordinate arrays have length 359, so the size assertions in `_x` and
`_y` fire. -/
theorem c2_assertion_fires_2012 :
    initYearSheet none (some 2012) false (fun n => List.replicate n (0:ℚ))
        = .ok ⟨List.replicate 366 0, 2012, true⟩ ∧
    (List.replicate 366 (0:ℚ)).length = 366 ∧
    (xCoords 2012).length = 359 ∧ (yCoords 2012).length = 359 := by
  refine ⟨?_, by simp, ?_, ?_⟩
  · show initCore none (normYear (some 2012)) false (fun n => List.replicate n (0:ℚ)) = _
    rw [show normYear (some 2012) = some 2012 from rfl]
    simp only [initCore]
    rw [if_pos (show isleap 2012 = true from by decide), generateRandomData_replicate_zero]
    rfl
  · rw [length_xCoords]
    decide
  · rw [length_yCoords]
    decide

/-- C2 amended: for every successfully constructed sheet whose resolved
year is not a Sunday-starting leap year, the computed coordinate arrays
have exactly the length of the DaySeries, so the assertions in `_x` and
`_y` hold; the counterexample shows they fire precisely on
Sunday-starting leap resolved years. -/
theorem c2_assertion_holds
    (source : Option (List ℚ)) (year : Option Nat) (bare : Bool)
    (draw : Nat → List ℚ) (s : Sheet)
    (hdraw : ∀ n, (draw n).length = n)
    (h : initYearSheet source year bare draw = .ok s)
    (hedge : isleap s.year = true → weekdayJan1 s.year ≠ 6) :
    (xCoords s.year).length = s.data.length ∧
    (yCoords s.year).length = s.data.length := by
  obtain ⟨hor, hiff⟩ := init_ok_inventory hdraw h
  have htot := total_cells s.year
  have hx := length_xCoords s.year
  have hy := length_yCoords s.year
  cases hq : isleap s.year
  · rw [hq] at htot
    simp only [Bool.false_eq_true, if_false, ite_false] at htot
    have h365 : s.data.length = 365 := by
      rcases hor with h' | h'
      · exact h'
      · rw [hiff.mp h'] at hq
        cases hq
    rw [hx, hy, htot, h365]
    exact ⟨rfl, rfl⟩
  · have hw := hedge hq
    rw [hq] at htot
    simp only [if_true, ite_true, if_neg hw] at htot
    have h366 : s.data.length = 366 := hiff.mpr hq
    rw [hx, hy, htot, h366]
    exact ⟨rfl, rfl⟩

/-- C2 witness: the amended statement at the default construction (year
2021, 365 zeros). -/
theorem c2_assertion_holds_witness :
    (xCoords 2021).length = (List.replicate 365 (0:ℚ)).length ∧
    (yCoords 2021).length = (List.replicate 365 (0:ℚ)).length :=
  c2_assertion_holds none none false (fun n => List.replicate n 0)
    ⟨List.replicate 365 0, 2021, true⟩ (fun n => by simp)
    (by rw [initYearSheet_none_none, generateRandomData_replicate_zero,
          getYearFromData_replicate_zero_365]
        rfl)
    (by decide)

/-- C6: with both a source and a (truthy) year given, construction fails
with the year-mismatch error exactly when the parsed length is 366 for a
non-leap year or 365 for a leap year, and the attached message is the
specified one. -/
theorem c6_year_mismatch (s : List ℚ) (y : Nat) (bare : Bool)
    (draw : Nat → List ℚ) (hy : y ≠ 0) :
    (initYearSheet (some s) (some y) bare draw = .error .yearMismatch ↔
      (s.length = 366 ∧ isleap y = false) ∨ (s.length = 365 ∧ isleap y = true)) ∧
    errMessage .yearMismatch = "Data size and year mismatch." := by
  refine ⟨?_, rfl⟩
  rw [initYearSheet_some_some_eq s y bare draw hy]
  by_cases hl : s.length = 365 ∨ s.length = 366
  · rw [if_pos hl]
    by_cases hc : (s.length = 365 ∧ isleap y = true) ∨ (s.length = 366 ∧ isleap y = false)
    · rw [if_pos hc]
      exact iff_of_true rfl (by tauto)
    · rw [if_neg hc]
      exact iff_of_false (fun hcontra => Except.noConfusion hcontra) (by tauto)
  · rw [if_neg hl]
    refine iff_of_false (fun hcontra => ?_) (by tauto)
    cases Except.error.inj hcontra

/-- C6 witness: a 366-entry series with the non-leap year 2019 is
rejected with the year-mismatch error. -/
theorem c6_year_mismatch_witness :
    initYearSheet (some (List.replicate 366 (0:ℚ))) (some 2019) false (fun _ => [])
      = .error .yearMismatch := by
  refine (c6_year_mismatch (List.replicate 366 0) 2019 false (fun _ => [])
    (by decide)).1.mpr (Or.inl ⟨?_, ?_⟩)
  · simp
  · decide

/-- C7: `_parse_file` fails with the size-validation error (with the
specified message) exactly when the parsed array length is neither 365
nor 366; on success it returns the parsed values unchanged, and on
failure the whole construction returns that error and no sheet. -/
theorem c7_size_validation (s : List ℚ) :
    (parseFile s = .error .sizeValidation ↔ ¬(s.length = 365 ∨ s.length = 366)) ∧
    (∀ d, parseFile s = .ok d → d = s) ∧
    errMessage .sizeValidation =
      "The file contains less than 365 or more than 366 entries." ∧
    (∀ year bare draw, ¬(s.length = 365 ∨ s.length = 366) →
      initYearSheet (some s) year bare draw = .error .sizeValidation) := by
  refine ⟨⟨?_, parseFile_error⟩, fun d hd => (parseFile_ok hd).1, rfl,
    fun year bare draw hlen => ?_⟩
  · intro h hl
    unfold parseFile at h
    rw [if_pos hl] at h
    cases h
  · unfold initYearSheet
    rcases hny : normYear year with _ | y <;> simp only [initCore] <;>
      rw [parseFile_error hlen]

/-- C7 witness: files with 364 and with 367 entries are rejected with the
size-validation error through the whole construction. -/
theorem c7_size_validation_witness :
    initYearSheet (some (List.replicate 364 (0:ℚ))) none false (fun _ => [])
        = .error .sizeValidation ∧
    initYearSheet (some (List.replicate 367 (0:ℚ))) (some 2020) false (fun _ => [])
        = .error .sizeValidation := by
  constructor
  · exact (c7_size_validation (List.replicate 364 0)).2.2.2 none false (fun _ => [])
      (by simp)
  · exact (c7_size_validation (List.replicate 367 0)).2.2.2 (some 2020) false (fun _ => [])
      (by simp)

/-- C10: constructing from a file of exactly 365 values yields a sheet
holding those values unchanged with year 2021, and the first entry of the
week-index array is 0. -/
theorem c10_round_trip (data : List ℚ) (bare : Bool) (draw : Nat → List ℚ)
    (h : data.length = 365) :
    initYearSheet (some data) none bare draw = .ok ⟨data, 2021, !bare⟩ ∧
    (xCoords 2021)[0]? = some 0 := by
  constructor
  · rw [initYearSheet_some_none,
      show parseFile data = Except.ok data from by unfold parseFile; rw [if_pos (Or.inl h)]]
    show (Except.ok ⟨data, getYearFromData data, !bare⟩ : Except YSError Sheet) = _
    rw [show getYearFromData data = 2021 from by unfold getYearFromData; rw [if_pos h]]
  · rfl

/-- C10 witness: the round trip at the all-zero 365-entry file. -/
theorem c10_round_trip_witness :
    initYearSheet (some (List.replicate 365 (0:ℚ))) none false (fun _ => [])
        = .ok ⟨List.replicate 365 0, 2021, true⟩ ∧
    (xCoords 2021)[0]? = some 0 :=
  c10_round_trip (List.replicate 365 0) false (fun _ => []) (by simp)

lemma listMin_le {l : List ℚ} {x : ℚ} (hx : x ∈ l) : listMin l ≤ x := by
  induction l with
  | nil => cases hx
  | cons a rest ih =>
      cases rest with
      | nil =>
          rcases List.mem_singleton.mp hx with rfl
          exact le_refl _
      | cons b t =>
          rcases List.mem_cons.mp hx with rfl | hmem
          · exact min_le_left _ _
          · exact le_trans (min_le_right _ _) (ih hmem)

lemma listMin_map_sub (l : List ℚ) (c : ℚ) :
    l ≠ [] → listMin (l.map (fun v => v - c)) = listMin l - c := by
  induction l with
  | nil => intro h; exact absurd rfl h
  | cons a rest ih =>
      intro _
      cases rest with
      | nil => rfl
      | cons b t =>
          show min (a - c) (listMin ((b :: t).map (fun v => v - c)))
            = min a (listMin (b :: t)) - c
          rw [ih (by simp), min_sub_sub_right]

/-- C9: every synthetically generated DaySeries (for any nonempty
underlying draw) has exact minimum 0 and only nonnegative values. -/
theorem c9_random_data_nonneg (draw : List ℚ) (h : draw ≠ []) :
    listMin (generateRandomData draw) = 0 ∧
    ∀ v ∈ generateRandomData draw, 0 ≤ v := by
  constructor
  · rw [show generateRandomData draw = draw.map (fun v => v - listMin draw) from rfl,
      listMin_map_sub draw (listMin draw) h, sub_self]
  · intro v hv
    obtain ⟨x, hx, rfl⟩ := List.mem_map.mp hv
    exact sub_nonneg.mpr (listMin_le hx)

/-- C9 witness: the shifted series of the draw [3, 1, 2]. -/
theorem c9_random_data_nonneg_witness :
    listMin (generateRandomData [(3:ℚ), 1, 2]) = 0 ∧
    ∀ v ∈ generateRandomData [(3:ℚ), 1, 2], 0 ≤ v :=
  c9_random_data_nonneg [3, 1, 2] (by simp)

lemma innerX_blocks_getElem (a n k j : Nat) (hk : k < n) (hj : j < 7) :
    (((List.range' a n).map (fun m => List.replicate 7 m)).flatten)[7 * k + j]?
      = some (a + k) := by
  induction n generalizing a k with
  | zero => omega
  | succ m ih =>
      rw [List.range'_succ, List.map_cons, List.flatten_cons]
      cases k with
      | zero =>
          rw [List.getElem?_append_left
              (show 7 * 0 + j < (List.replicate 7 a).length from by
                rw [List.length_replicate]; omega),
            List.getElem?_replicate, if_pos (show 7 * 0 + j < 7 from by omega),
            Nat.add_zero]
      | succ k2 =>
          rw [List.getElem?_append_right
              (show (List.replicate 7 a).length ≤ 7 * (k2 + 1) + j from by
                rw [List.length_replicate]; omega),
            List.length_replicate,
            show 7 * (k2 + 1) + j - 7 = 7 * k2 + j from by omega,
            ih (a + 1) k2 (by omega)]
          congr 1
          omega

lemma innerY_blocks_getElem (s n k j : Nat) (hk : k < n) (hj : j < 7) :
    (((List.range' s n).map (fun _ => List.range' 1 7)).flatten)[7 * k + j]?
      = some (j + 1) := by
  induction n generalizing s k with
  | zero => omega
  | succ m ih =>
      rw [show List.range' s (m + 1) = s :: List.range' (s + 1) m from
          List.range'_succ s m 1,
        List.map_cons, List.flatten_cons]
      cases k with
      | zero =>
          rw [List.getElem?_append_left
              (show 7 * 0 + j < (List.range' 1 7).length from by
                rw [List.length_range']; omega),
            List.getElem?_range' 1 1 (show 7 * 0 + j < 7 from by omega)]
          congr 1
          omega
      | succ k2 =>
          rw [List.getElem?_append_right
              (show (List.range' 1 7).length ≤ 7 * (k2 + 1) + j from by
                rw [List.length_range']; omega),
            List.length_range',
            show 7 * (k2 + 1) + j - 7 = 7 * k2 + j from by omega]
          exact ih (s + 1) k2 (by omega)

lemma innerX_getElem (k j : Nat) (hk : k < 51) (hj : j < 7) :
    innerX[7 * k + j]? = some (k + 1) := by
  unfold innerX
  rw [innerX_blocks_getElem 1 51 k j hk hj]
  congr 1
  omega

lemma innerY_getElem (k j : Nat) (hk : k < 51) (hj : j < 7) :
    innerY[7 * k + j]? = some (j + 1) := by
  unfold innerY
  exact innerY_blocks_getElem 1 51 k j hk hj

/-- C4: in chronological order, the first `firstWeekDays` days get week
index 0 and weekday indices 1.., the following 51 groups of 7 days get
week indices 1..51 with weekday indices 1..7, and the final
`lastWeekDays` days get week index 52 with weekday indices 1... -/
theorem c4_coordinate_assignment (y i k j : Nat) (_hy : 1 ≤ y) :
    (i < firstWeekDays y →
      (xCoords y)[i]? = some 0 ∧ (yCoords y)[i]? = some (i + 1)) ∧
    (k < 51 → j < 7 →
      (xCoords y)[firstWeekDays y + (7 * k + j)]? = some (k + 1) ∧
      (yCoords y)[firstWeekDays y + (7 * k + j)]? = some (j + 1)) ∧
    (j < lastWeekDays y →
      (xCoords y)[firstWeekDays y + 357 + j]? = some 52 ∧
      (yCoords y)[firstWeekDays y + 357 + j]? = some (j + 1)) := by
  refine ⟨fun hi => ⟨?_, ?_⟩, fun hk hj => ⟨?_, ?_⟩, fun hj => ⟨?_, ?_⟩⟩
  · unfold xCoords
    rw [List.getElem?_append_left
        (show i < (List.replicate (firstWeekDays y) 0 ++ innerX).length from by
          rw [List.length_append, List.length_replicate, length_innerX]; omega),
      List.getElem?_append_left
        (show i < (List.replicate (firstWeekDays y) 0).length from by
          rw [List.length_replicate]; omega),
      List.getElem?_replicate, if_pos hi]
  · unfold yCoords
    rw [List.getElem?_append_left
        (show i < (List.range' 1 (firstWeekDays y) ++ innerY).length from by
          rw [List.length_append, List.length_range', length_innerY]; omega),
      List.getElem?_append_left
        (show i < (List.range' 1 (firstWeekDays y)).length from by
          rw [List.length_range']; omega),
      List.getElem?_range' 1 1 hi]
    congr 1
    omega
  · unfold xCoords
    rw [List.getElem?_append_left
        (show firstWeekDays y + (7 * k + j)
            < (List.replicate (firstWeekDays y) 0 ++ innerX).length from by
          rw [List.length_append, List.length_replicate, length_innerX]; omega),
      List.getElem?_append_right
        (show (List.replicate (firstWeekDays y) 0).length
            ≤ firstWeekDays y + (7 * k + j) from by
          rw [List.length_replicate]; omega),
      List.length_replicate,
      show firstWeekDays y + (7 * k + j) - firstWeekDays y = 7 * k + j from by omega]
    exact innerX_getElem k j hk hj
  · unfold yCoords
    rw [List.getElem?_append_left
        (show firstWeekDays y + (7 * k + j)
            < (List.range' 1 (firstWeekDays y) ++ innerY).length from by
          rw [List.length_append, List.length_range', length_innerY]; omega),
      List.getElem?_append_right
        (show (List.range' 1 (firstWeekDays y)).length
            ≤ firstWeekDays y + (7 * k + j) from by
          rw [List.length_range']; omega),
      List.length_range',
      show firstWeekDays y + (7 * k + j) - firstWeekDays y = 7 * k + j from by omega]
    exact innerY_getElem k j hk hj
  · unfold xCoords
    rw [List.getElem?_append_right
        (show (List.replicate (firstWeekDays y) 0 ++ innerX).length
            ≤ firstWeekDays y + 357 + j from by
          rw [List.length_append, List.length_replicate, length_innerX]; omega),
      List.length_append, List.length_replicate, length_innerX,
      show firstWeekDays y + 357 + j - (firstWeekDays y + 357) = j from by omega,
      List.getElem?_replicate, if_pos hj]
  · unfold yCoords
    rw [List.getElem?_append_right
        (show (List.range' 1 (firstWeekDays y) ++ innerY).length
            ≤ firstWeekDays y + 357 + j from by
          rw [List.length_append, List.length_range', length_innerY]; omega),
      List.length_append, List.length_range', length_innerY,
      show firstWeekDays y + 357 + j - (firstWeekDays y + 357) = j from by omega,
      List.getElem?_range' 1 1 hj]
    congr 1
    omega

/-- C4 witness: the assignment at year 2021 for the first day of each of
the three regions. -/
theorem c4_coordinate_assignment_witness :
    ((xCoords 2021)[0]? = some 0 ∧ (yCoords 2021)[0]? = some (0 + 1)) ∧
    ((xCoords 2021)[firstWeekDays 2021 + (7 * 0 + 0)]? = some (0 + 1) ∧
     (yCoords 2021)[firstWeekDays 2021 + (7 * 0 + 0)]? = some (0 + 1)) ∧
    ((xCoords 2021)[firstWeekDays 2021 + 357 + 0]? = some 52 ∧
     (yCoords 2021)[firstWeekDays 2021 + 357 + 0]? = some (0 + 1)) := by
  refine ⟨?_, ?_, ?_⟩
  · exact (c4_coordinate_assignment 2021 0 0 0 (by decide)).1 (by decide)
  · exact (c4_coordinate_assignment 2021 0 0 0 (by decide)).2.1 (by decide) (by decide)
  · exact (c4_coordinate_assignment 2021 0 0 0 (by decide)).2.2 (by decide)

lemma filter_zip_ones (xs : List Nat) (w : Nat) :
    ((xs.zip (List.replicate xs.length (1:ℚ))).filter (fun q => q.1 == w)).map Prod.snd
      = List.replicate (xs.count w) 1 := by
  induction xs with
  | nil => rfl
  | cons a t ih =>
      rw [List.length_cons, List.replicate_succ, List.zip_cons_cons]
      by_cases haw : a = w
      · subst haw
        simp [List.filter_cons, List.count_cons, List.replicate_succ, ih]
      · simp [List.filter_cons, List.count_cons, List.replicate_succ, ih, haw]

lemma sum_filter_zip_ones (xs : List Nat) (w : Nat) :
    (((xs.zip (List.replicate xs.length (1:ℚ))).filter (fun q => q.1 == w)).map
      Prod.snd).sum = (xs.count w : ℚ) := by
  rw [filter_zip_ones, List.sum_replicate, nsmul_eq_mul, mul_one]

lemma weekLoadData_ones (y : Nat) :
    weekLoadData y (List.replicate (xCoords y).length (1:ℚ)) =
      (List.insertionSort (fun a b => a ≤ b) (xCoords y).dedup).map
        (fun w => (w, ((xCoords y).count w : ℚ))) := by
  show (List.insertionSort (fun a b => a ≤ b) (xCoords y).dedup).map
      (fun w => (w, ((((xCoords y).zip (List.replicate (xCoords y).length (1:ℚ))).filter
        (fun q => q.1 == w)).map Prod.snd).sum)) = _
  exact List.map_congr_left (fun w _ => by rw [sum_filter_zip_ones])

lemma weekLoadData_ones_2021 :
    weekLoadData 2021 (List.replicate 365 (1:ℚ)) =
      (List.range' 0 53).map (fun w => (w, ((xCoords 2021).count w : ℚ))) := by
  have h := weekLoadData_ones 2021
  rw [show (xCoords 2021).length = 365 from by rw [length_xCoords]; decide] at h
  rw [h, show List.insertionSort (fun a b => a ≤ b) (xCoords 2021).dedup
      = List.range' 0 53 from by decide]

lemma count_flatten_blocks_notmem (a n k : Nat) (h : k < a) :
    (((List.range' a n).map (fun m => List.replicate 7 m)).flatten).count k = 0 := by
  rw [List.count_eq_zero]
  intro hmem
  rw [List.mem_flatten] at hmem
  obtain ⟨blk, hblk, hkblk⟩ := hmem
  rw [List.mem_map] at hblk
  obtain ⟨b, hb, rfl⟩ := hblk
  rw [List.mem_replicate] at hkblk
  rw [List.mem_range'_1] at hb
  obtain ⟨-, hkb⟩ := hkblk
  omega

lemma count_flatten_blocks (a n k : Nat) (h1 : a ≤ k) (h2 : k < a + n) :
    (((List.range' a n).map (fun m => List.replicate 7 m)).flatten).count k = 7 := by
  induction n generalizing a with
  | zero => omega
  | succ m ih =>
      rw [show List.range' a (m + 1) = a :: List.range' (a + 1) m from
          List.range'_succ a m 1,
        List.map_cons, List.flatten_cons, List.count_append]
      by_cases hka : k = a
      · subst hka
        rw [List.count_replicate, if_pos (beq_self_eq_true k),
          count_flatten_blocks_notmem (k + 1) m k (by omega)]
      · rw [List.count_replicate, if_neg (by simp; omega),
          ih (a + 1) (by omega) (by omega)]

lemma count_innerX (k : Nat) (h1 : 1 ≤ k) (h2 : k ≤ 51) : innerX.count k = 7 := by
  unfold innerX
  exact count_flatten_blocks 1 51 k h1 (by omega)

lemma count_xCoords_mid (k : Nat) (h1 : 1 ≤ k) (h2 : k ≤ 51) :
    (xCoords 2021).count k = 7 := by
  unfold xCoords
  rw [List.count_append, List.count_append, count_innerX k h1 h2,
    List.count_replicate, if_neg (by simp; omega),
    List.count_replicate, if_neg (by simp; omega)]

/-- C5: the weekly aggregation pairs each distinct week index present,
ascending and without repetition, with the sum of the day values of that
week; for the all-ones series of year 2021 the aggregates are 3 for week
0, 7 for each of weeks 1..51, and 5 for week 52. -/
theorem c5_week_aggregation (y : Nat) (data : List ℚ) :
    List.Pairwise (fun p q => p.1 < q.1) (weekLoadData y data) ∧
    (∀ w, (∃ p ∈ weekLoadData y data, p.1 = w) ↔ w ∈ xCoords y) ∧
    (∀ p ∈ weekLoadData y data,
      p.2 = ((((xCoords y).zip data).filter (fun q => q.1 == p.1)).map Prod.snd).sum) ∧
    ((0, (3:ℚ)) ∈ weekLoadData 2021 (List.replicate 365 1) ∧
     (∀ k, 1 ≤ k → k ≤ 51 → (k, (7:ℚ)) ∈ weekLoadData 2021 (List.replicate 365 1)) ∧
     (52, (5:ℚ)) ∈ weekLoadData 2021 (List.replicate 365 1)) := by
  refine ⟨?_, ?_, ?_, ?_, ?_, ?_⟩
  · exact List.pairwise_map.mpr
      (List.Sorted.lt_of_le (List.sorted_insertionSort _ _)
        ((List.perm_insertionSort _ _).nodup_iff.mpr (List.nodup_dedup _)))
  · intro w
    constructor
    · rintro ⟨p, hp, rfl⟩
      obtain ⟨w2, hw2, rfl⟩ := List.mem_map.mp hp
      exact List.mem_dedup.mp
        ((List.perm_insertionSort (fun a b : Nat => a ≤ b) (xCoords y).dedup).mem_iff.mp hw2)
    · intro hw
      exact ⟨(w, ((((xCoords y).zip data).filter (fun q => q.1 == w)).map Prod.snd).sum),
        List.mem_map_of_mem _
          ((List.perm_insertionSort _ _).mem_iff.mpr (List.mem_dedup.mpr hw)),
        rfl⟩
  · intro p hp
    obtain ⟨w2, hw2, rfl⟩ := List.mem_map.mp hp
    rfl
  · rw [weekLoadData_ones_2021]
    refine List.mem_map.mpr ⟨0, by decide, ?_⟩
    rw [show (xCoords 2021).count 0 = 3 from by decide]
    norm_num
  · intro k h1 h2
    rw [weekLoadData_ones_2021]
    refine List.mem_map.mpr ⟨k, ?_, ?_⟩
    · rw [List.mem_range'_1]
      omega
    · rw [count_xCoords_mid k h1 h2]
      norm_num
  · rw [weekLoadData_ones_2021]
    refine List.mem_map.mpr ⟨52, by decide, ?_⟩
    rw [show (xCoords 2021).count 52 = 5 from by decide]
    norm_num

/-- C5 witness: the aggregate for week 1 of the all-ones 2021 series is
7. -/
theorem c5_week_aggregation_witness :
    ((1 : Nat), (7:ℚ)) ∈ weekLoadData 2021 (List.replicate 365 1) :=
  (c5_week_aggregation 2021 (List.replicate 365 1)).2.2.2.2.1 1 (by decide) (by decide)

end YearSheetModel
